import Mathlib

/-!
Shallow embedding of the ConsultEase Faculty Desk Unit core
(`src/faculty_desk_unit/`): the consultation lifecycle manager
(`consultation_manager.h`), the network manager (`network_manager.h`) and
the BLE presence manager (`ble_manager.h`), together with the constants
from `faculty_constants.h`, `mqtt_topics.h` and `config.h`.

Modelling conventions:
* C++ `String`/`char[]` fields become Lean `String` (the fixed-size buffer
  truncation of `strncpy` is not modelled; no claim concerns it).
* `unsigned long` millisecond timestamps become `Nat`, with the C unsigned
  32-bit subtraction `a - b` modelled explicitly by `usub32`.
* External effects (WiFi association, MQTT broker connection, MQTT publish)
  are driven by boolean oracles supplied per call in an environment record:
  the oracle is the success/failure outcome of the corresponding hardware
  or network operation.
* ArduinoJson documents are modelled by a record of optional fields;
  `variant.as<const char*>()` on an absent or non-string field yields NULL,
  modelled by `jsonAsCStr` returning `none`.
-/

namespace ConsultEase

/-! ### Constants (faculty_constants.h, mqtt_topics.h, config.h) -/

def CONSULT_STATUS_PENDING : String := "pending"

def CONSULT_STATUS_ACCEPTED : String := "accepted"

def CONSULT_STATUS_STARTED : String := "started"

def CONSULT_STATUS_COMPLETED : String := "completed"

def CONSULT_STATUS_CANCELLED : String := "cancelled"

def CONSULT_STATUS_REJECTED : String := "rejected"

def CONSULT_STATUS_UNKNOWN : String := "unknown"

def CONSULT_ACTION_ACCEPT : String := "accepted"

def CONSULT_ACTION_REJECT : String := "rejected_by_faculty"

def CONSULT_ACTION_START : String := "started"

def CONSULT_ACTION_COMPLETE : String := "completed"

def CONSULT_ACTION_CANCEL : String := "cancelled_by_faculty"

/-- `FACULTY_ID` as seen by `consultation_manager.h` / `network_manager.h`
(the `faculty_constants.h` definition, included after `config.h`). -/
def FACULTY_ID : String := "F12345"

def BASE_TOPIC : String := "consultease"

/-- `FACULTY_STATUS_TOPIC(id)` from mqtt_topics.h. -/
def FACULTY_STATUS_TOPIC (id : String) : String :=
  BASE_TOPIC ++ "/faculty/" ++ id ++ "/status"

/-- `FACULTY_REQUEST_TOPIC(id)` from mqtt_topics.h. -/
def FACULTY_REQUEST_TOPIC (id : String) : String :=
  BASE_TOPIC ++ "/faculty/" ++ id ++ "/request"

/-- `FACULTY_RESPONSE_TOPIC(id)` from mqtt_topics.h: note the segment is
the singular `/response`. -/
def FACULTY_RESPONSE_TOPIC (id : String) : String :=
  BASE_TOPIC ++ "/faculty/" ++ id ++ "/response"

/-- `topicResponse` as initialized in the NetworkManager constructor:
`snprintf(topicResponse, ..., FACULTY_RESPONSE_TOPIC(FACULTY_ID))`
(the format string holds no conversion specifier, so it is copied
verbatim). -/
def topicResponse : String := FACULTY_RESPONSE_TOPIC FACULTY_ID

/-! ### MQTT publish events -/

/-- An outbound MQTT publish of a consultation-response JSON document.
The ArduinoJson document built by `publishConsultationResponse` holds
exactly the keys `action` and `consultation_id`; we record them as the two
payload fields. -/
structure MqttPublish where
  topic : String
  action : String
  consultation_id : Int
  qos : Nat
  retained : Bool
deriving Repr, DecidableEq

/-- `NetworkManager::publishConsultationResponse`. The boolean oracle
`pubOk` is the outcome of `publishJSONMessage` (serialization, MQTT
connectivity and the client publish). Returns the call's result together
with the message handed to the publish path. -/
def publishConsultationResponse (consultationId : Int) (action : String)
    (pubOk : Bool) : Bool × Option MqttPublish :=
  if consultationId ≤ 0 then
    (false, none)
  else
    (pubOk, some ⟨topicResponse, action, consultationId, 1, false⟩)

/-! ### ConsultationManager state and actions -/

/-- The mutable fields of `ConsultationManager`. -/
structure ConsultState where
  currentConsultationId : Int
  currentConsultationStatus : String
  currentStudentName : String
  currentRequestMessage : String
  pendingRequest : Bool
deriving Repr, DecidableEq

/-- `ConsultationManager::resetConsultation`. -/
def resetConsultation : ConsultState :=
  { currentConsultationId := -1
    currentConsultationStatus := CONSULT_STATUS_UNKNOWN
    currentStudentName := ""
    currentRequestMessage := ""
    pendingRequest := false }

/-- Result of a consultation action: the returned boolean, the state after
the call, and the response publish handed to the network manager (if the
guard passed). -/
structure ActionResult where
  success : Bool
  state : ConsultState
  published : Option MqttPublish
deriving Repr, DecidableEq

/-- `ConsultationManager::acceptConsultation`. -/
def acceptConsultation (s : ConsultState) (pubOk : Bool) : ActionResult :=
  if s.currentConsultationId ≤ 0 ∨
      s.currentConsultationStatus ≠ CONSULT_STATUS_PENDING then
    ⟨false, s, none⟩
  else
    let pr := publishConsultationResponse s.currentConsultationId
      CONSULT_ACTION_ACCEPT pubOk
    if pr.1 then
      ⟨true, { s with currentConsultationStatus := CONSULT_STATUS_ACCEPTED },
        pr.2⟩
    else
      ⟨false, s, pr.2⟩

/-- `ConsultationManager::rejectConsultation`. -/
def rejectConsultation (s : ConsultState) (pubOk : Bool) : ActionResult :=
  if s.currentConsultationId ≤ 0 ∨
      s.currentConsultationStatus ≠ CONSULT_STATUS_PENDING then
    ⟨false, s, none⟩
  else
    let pr := publishConsultationResponse s.currentConsultationId
      CONSULT_ACTION_REJECT pubOk
    if pr.1 then
      ⟨true, resetConsultation, pr.2⟩
    else
      ⟨false, s, pr.2⟩

/-- `ConsultationManager::startConsultation`. -/
def startConsultation (s : ConsultState) (pubOk : Bool) : ActionResult :=
  if s.currentConsultationId ≤ 0 ∨
      s.currentConsultationStatus ≠ CONSULT_STATUS_ACCEPTED then
    ⟨false, s, none⟩
  else
    let pr := publishConsultationResponse s.currentConsultationId
      CONSULT_ACTION_START pubOk
    if pr.1 then
      ⟨true, { s with currentConsultationStatus := CONSULT_STATUS_STARTED },
        pr.2⟩
    else
      ⟨false, s, pr.2⟩

/-- `ConsultationManager::completeConsultation`. -/
def completeConsultation (s : ConsultState) (pubOk : Bool) : ActionResult :=
  if s.currentConsultationId ≤ 0 ∨
      s.currentConsultationStatus ≠ CONSULT_STATUS_STARTED then
    ⟨false, s, none⟩
  else
    let pr := publishConsultationResponse s.currentConsultationId
      CONSULT_ACTION_COMPLETE pubOk
    if pr.1 then
      ⟨true, resetConsultation, pr.2⟩
    else
      ⟨false, s, pr.2⟩

/-- `ConsultationManager::cancelConsultation`. -/
def cancelConsultation (s : ConsultState) (pubOk : Bool) : ActionResult :=
  if s.currentConsultationId ≤ 0 ∨
      (s.currentConsultationStatus ≠ CONSULT_STATUS_ACCEPTED ∧
       s.currentConsultationStatus ≠ CONSULT_STATUS_STARTED) then
    ⟨false, s, none⟩
  else
    let pr := publishConsultationResponse s.currentConsultationId
      CONSULT_ACTION_CANCEL pubOk
    if pr.1 then
      ⟨true, resetConsultation, pr.2⟩
    else
      ⟨false, s, pr.2⟩

end ConsultEase

namespace ConsultEase

/-- C1: for each of the five consultation actions, the call succeeds (and a
state transition occurs) if and only if (a) the slot is non-empty
(`currentConsultationId > 0`), (b) the current status exactly matches the
action's required prior status (accept/reject require pending, start
requires accepted, complete requires started, cancel requires accepted or
started), and (c) the outbound publish succeeds; on failure the whole
slot is unchanged; on success accept sets status accepted, start sets
started, and reject, complete and cancel clear the slot. -/
theorem c1_consultation_action_transitions (s : ConsultState) (ok : Bool) :
    (((acceptConsultation s ok).success = true ↔
        (0 < s.currentConsultationId ∧
         s.currentConsultationStatus = CONSULT_STATUS_PENDING ∧ ok = true)) ∧
     ((acceptConsultation s ok).success = false →
        (acceptConsultation s ok).state = s) ∧
     ((acceptConsultation s ok).success = true →
        (acceptConsultation s ok).state =
          { s with currentConsultationStatus := CONSULT_STATUS_ACCEPTED })) ∧
    (((rejectConsultation s ok).success = true ↔
        (0 < s.currentConsultationId ∧
         s.currentConsultationStatus = CONSULT_STATUS_PENDING ∧ ok = true)) ∧
     ((rejectConsultation s ok).success = false →
        (rejectConsultation s ok).state = s) ∧
     ((rejectConsultation s ok).success = true →
        (rejectConsultation s ok).state = resetConsultation)) ∧
    (((startConsultation s ok).success = true ↔
        (0 < s.currentConsultationId ∧
         s.currentConsultationStatus = CONSULT_STATUS_ACCEPTED ∧ ok = true)) ∧
     ((startConsultation s ok).success = false →
        (startConsultation s ok).state = s) ∧
     ((startConsultation s ok).success = true →
        (startConsultation s ok).state =
          { s with currentConsultationStatus := CONSULT_STATUS_STARTED })) ∧
    (((completeConsultation s ok).success = true ↔
        (0 < s.currentConsultationId ∧
         s.currentConsultationStatus = CONSULT_STATUS_STARTED ∧ ok = true)) ∧
     ((completeConsultation s ok).success = false →
        (completeConsultation s ok).state = s) ∧
     ((completeConsultation s ok).success = true →
        (completeConsultation s ok).state = resetConsultation)) ∧
    (((cancelConsultation s ok).success = true ↔
        (0 < s.currentConsultationId ∧
         (s.currentConsultationStatus = CONSULT_STATUS_ACCEPTED ∨
          s.currentConsultationStatus = CONSULT_STATUS_STARTED) ∧
         ok = true)) ∧
     ((cancelConsultation s ok).success = false →
        (cancelConsultation s ok).state = s) ∧
     ((cancelConsultation s ok).success = true →
        (cancelConsultation s ok).state = resetConsultation)) := by
  refine ⟨?_, ?_, ?_, ?_, ?_⟩
  · unfold acceptConsultation publishConsultationResponse
    split_ifs with h1 <;> cases ok <;> simp_all <;>
      intro hpos hst <;> rcases h1 with h1 | h1 <;>
        first
          | omega
          | exact absurd hst h1
  · unfold rejectConsultation publishConsultationResponse
    split_ifs with h1 <;> cases ok <;> simp_all <;>
      intro hpos hst <;> rcases h1 with h1 | h1 <;>
        first
          | omega
          | exact absurd hst h1
  · unfold startConsultation publishConsultationResponse
    split_ifs with h1 <;> cases ok <;> simp_all <;>
      intro hpos hst <;> rcases h1 with h1 | h1 <;>
        first
          | omega
          | exact absurd hst h1
  · unfold completeConsultation publishConsultationResponse
    split_ifs with h1 <;> cases ok <;> simp_all <;>
      intro hpos hst <;> rcases h1 with h1 | h1 <;>
        first
          | omega
          | exact absurd hst h1
  · unfold cancelConsultation publishConsultationResponse
    split_ifs with h1 <;> cases ok <;> simp_all <;>
      first
        | (intros; rcases h1 with h1 | h1 <;> first | omega | tauto)
        | tauto

end ConsultEase

namespace ConsultEase

/-! ### Inbound request documents (ArduinoJson model) -/

/-- A JSON field value: either a string or a non-string scalar (number).
`as<const char*>()` on a non-string value yields NULL. -/
inductive JsonVal where
  | jstr (s : String)
  | jnum (n : Int)
deriving Repr, DecidableEq

/-- `doc["field"]` read as `const char*`: NULL unless the field is present
and is a string. -/
def jsonAsCStr : Option JsonVal → Option String
  | some (JsonVal.jstr s) => some s
  | _ => none

/-- The fields of an inbound consultation-request JSON document that
`processConsultationRequest` reads. Integer fields are modelled directly
as optional integers (a missing id converts to 0 in ArduinoJson); string
fields as optional strings. -/
structure RequestDoc where
  faculty_id : Option JsonVal
  consultation_id : Option Int
  id : Option Int
  student_name : Option String
  consultation_status : Option String
  message : Option String
  request_message : Option String
deriving Repr, DecidableEq

/-- `ConsultationManager::isValidConsultationStatus`: the `strcmp` chain
over the seven known status strings. -/
def isValidConsultationStatus (status : String) : Bool :=
  status == CONSULT_STATUS_PENDING ||
  status == CONSULT_STATUS_ACCEPTED ||
  status == CONSULT_STATUS_STARTED ||
  status == CONSULT_STATUS_COMPLETED ||
  status == CONSULT_STATUS_CANCELLED ||
  status == CONSULT_STATUS_REJECTED ||
  status == CONSULT_STATUS_UNKNOWN

/-- `long consultationId = doc["consultation_id"] | doc["id"]`: the first
bound variant wins, a wholly absent id converts to 0. -/
def requestIdOf (d : RequestDoc) : Int :=
  ((d.consultation_id).orElse (fun _ => d.id)).getD 0

/-- Result of `processConsultationRequest`: the returned boolean, the
state after the call, and whether the "Invalid status received" notice
was shown on the display. -/
structure ProcessResult where
  success : Bool
  state : ConsultState
  invalidStatusNotice : Bool
deriving Repr, DecidableEq

/-- `ConsultationManager::processConsultationRequest`. `payload = none`
models a `deserializeJson` failure. -/
def processConsultationRequest (s : ConsultState)
    (payload : Option RequestDoc) : ProcessResult :=
  match payload with
  | none => ⟨false, s, false⟩
  | some doc =>
    -- `if (targetFacultyId && strcmp(targetFacultyId, FACULTY_ID) != 0)`
    let otherRecipient : Bool :=
      match jsonAsCStr doc.faculty_id with
      | some fid => fid != FACULTY_ID
      | none => false
    if otherRecipient then ⟨false, s, false⟩
    else
      let consultationId := requestIdOf doc
      if consultationId ≤ 0 then ⟨false, s, false⟩
      else
        let studentName := (doc.student_name).getD "Unknown Student"
        let statusAndNotice :=
          match doc.consultation_status with
          | some st =>
            if isValidConsultationStatus st then (st, false)
            else (CONSULT_STATUS_UNKNOWN, true)
          | none => (CONSULT_STATUS_PENDING, false)
        let requestMsg :=
          ((doc.message).orElse (fun _ => doc.request_message)).getD
            "No message provided"
        ⟨true,
          ⟨consultationId, statusAndNotice.1, studentName, requestMsg, true⟩,
          statusAndNotice.2⟩

end ConsultEase

namespace ConsultEase

/-- C1 witness: a concrete pending slot with id 5 is accepted when the
publish succeeds, and the status becomes accepted. -/
theorem c1_consultation_action_transitions_witness :
    (acceptConsultation
        ⟨5, CONSULT_STATUS_PENDING, "Ana", "Need help", true⟩ true).state =
      { (⟨5, CONSULT_STATUS_PENDING, "Ana", "Need help", true⟩ :
          ConsultState) with
        currentConsultationStatus := CONSULT_STATUS_ACCEPTED } :=
  (c1_consultation_action_transitions
    ⟨5, CONSULT_STATUS_PENDING, "Ana", "Need help", true⟩ true).1.2.2
    (by decide)

/-- C8: `processConsultationRequest` returns failure with the entire slot
unchanged on a parse failure, on a payload naming a different faculty
(silently), and on a missing or non-positive consultation id; the id is
read from `consultation_id` when bound, else from the alias `id`; when the
checks pass the request is accepted with that id. -/
theorem c8_request_validation (s : ConsultState) (d : RequestDoc)
    (fid : String) :
    (processConsultationRequest s none = ⟨false, s, false⟩) ∧
    (jsonAsCStr d.faculty_id = some fid → fid ≠ FACULTY_ID →
      processConsultationRequest s (some d) = ⟨false, s, false⟩) ∧
    ((jsonAsCStr d.faculty_id = none ∨
      jsonAsCStr d.faculty_id = some FACULTY_ID) →
      requestIdOf d ≤ 0 →
      processConsultationRequest s (some d) = ⟨false, s, false⟩) ∧
    (∀ a : Int, d.consultation_id = some a → requestIdOf d = a) ∧
    (∀ b : Int, d.consultation_id = none → d.id = some b →
      requestIdOf d = b) ∧
    ((jsonAsCStr d.faculty_id = none ∨
      jsonAsCStr d.faculty_id = some FACULTY_ID) →
      0 < requestIdOf d →
      (processConsultationRequest s (some d)).success = true ∧
      (processConsultationRequest s (some d)).state.currentConsultationId =
        requestIdOf d) := by
  refine ⟨rfl, ?_, ?_, ?_, ?_, ?_⟩
  · intro hfid hne
    unfold processConsultationRequest
    simp [hfid, hne]
  · intro hrec hle
    unfold processConsultationRequest
    rcases hrec with h | h <;> simp [h, hle]
  · intro a ha
    unfold requestIdOf
    simp [ha, Option.orElse]
  · intro b hc hb
    unfold requestIdOf
    simp [hc, hb, Option.orElse]
  · intro hrec hpos
    have hn : ¬ (requestIdOf d ≤ 0) := by omega
    unfold processConsultationRequest
    rcases hrec with h | h <;> simp [h, hn]

end ConsultEase

namespace ConsultEase

/-- C8 witness: a payload addressed to faculty "OTHER" is rejected and a
concrete slot is left unchanged. -/
theorem c8_request_validation_witness :
    processConsultationRequest
      ⟨7, CONSULT_STATUS_STARTED, "Bob", "msg", true⟩
      (some ⟨some (JsonVal.jstr "OTHER"), some 9, none, none, none, none,
        none⟩) =
      ⟨false, ⟨7, CONSULT_STATUS_STARTED, "Bob", "msg", true⟩, false⟩ :=
  (c8_request_validation
      ⟨7, CONSULT_STATUS_STARTED, "Bob", "msg", true⟩
      ⟨some (JsonVal.jstr "OTHER"), some 9, none, none, none, none, none⟩
      "OTHER").2.1 (by decide) (by decide)

/-- C4: for an inbound payload accepted for this node with a positive id:
a present `consultation_status` that is not a known status string forces
the slot status to "unknown", raises the invalid-status notice, and the
request is still accepted with the parsed id, student name and message;
an absent status field defaults the slot status to "pending". -/
theorem c4_status_validation (s : ConsultState) (d : RequestDoc)
    (st : String) :
    ((jsonAsCStr d.faculty_id = none ∨
      jsonAsCStr d.faculty_id = some FACULTY_ID) →
     0 < requestIdOf d →
     ((d.consultation_status = some st →
        isValidConsultationStatus st = false →
        processConsultationRequest s (some d) =
          ⟨true,
            ⟨requestIdOf d, CONSULT_STATUS_UNKNOWN,
              (d.student_name).getD "Unknown Student",
              ((d.message).orElse (fun _ => d.request_message)).getD
                "No message provided",
              true⟩,
            true⟩) ∧
      (d.consultation_status = none →
        processConsultationRequest s (some d) =
          ⟨true,
            ⟨requestIdOf d, CONSULT_STATUS_PENDING,
              (d.student_name).getD "Unknown Student",
              ((d.message).orElse (fun _ => d.request_message)).getD
                "No message provided",
              true⟩,
            false⟩))) := by
  intro hrec hpos
  have hn : ¬ (requestIdOf d ≤ 0) := by omega
  constructor
  · intro hst hbad
    unfold processConsultationRequest
    rcases hrec with h | h <;> simp [h, hn, hst, hbad]
  · intro hst
    unfold processConsultationRequest
    rcases hrec with h | h <;> simp [h, hn, hst]

/-- C4 witness: a concrete payload with unknown status string "bogus" is
accepted with status forced to "unknown" and the notice raised. -/
theorem c4_status_validation_witness :
    processConsultationRequest resetConsultation
      (some ⟨none, some 123, none, some "Ana", some "bogus",
        some "Need help", none⟩) =
      ⟨true, ⟨123, CONSULT_STATUS_UNKNOWN, "Ana", "Need help", true⟩,
        true⟩ :=
  ((c4_status_validation resetConsultation
      ⟨none, some 123, none, some "Ana", some "bogus", some "Need help",
        none⟩
      "bogus") (by left; rfl) (by decide)).1 (by decide) (by decide)

/-- C10: a payload whose `faculty_id` field is absent, or present but not
a string, passes the recipient check: given a positive id the request is
accepted into the slot. -/
theorem c10_missing_faculty_id_accepted (s : ConsultState)
    (d : RequestDoc) :
    (d.faculty_id = none ∨ (∃ n : Int, d.faculty_id = some (JsonVal.jnum n))) →
    0 < requestIdOf d →
    (processConsultationRequest s (some d)).success = true ∧
    (processConsultationRequest s (some d)).state.currentConsultationId =
      requestIdOf d ∧
    (processConsultationRequest s (some d)).state.pendingRequest = true := by
  intro hfid hpos
  have hn : ¬ (requestIdOf d ≤ 0) := by omega
  have hcstr : jsonAsCStr d.faculty_id = none := by
    rcases hfid with h | ⟨n, h⟩ <;> simp [h, jsonAsCStr]
  unfold processConsultationRequest
  simp [hcstr, hn]

/-- C10 witness: a concrete payload with a numeric `faculty_id` and id 4
is accepted. -/
theorem c10_missing_faculty_id_accepted_witness :
    (processConsultationRequest resetConsultation
        (some ⟨some (JsonVal.jnum 3), none, some 4, none, none, none,
          none⟩)).success = true :=
  (c10_missing_faculty_id_accepted resetConsultation
      ⟨some (JsonVal.jnum 3), none, some 4, none, none, none, none⟩
      (Or.inr ⟨3, rfl⟩) (by decide)).1

end ConsultEase

namespace ConsultEase

/-- C5 counterexample: a successful accept of a concrete pending slot
publishes its response on `consultease/faculty/F12345/response` — not on
the claimed per-faculty topic `<base>/faculty/<id>/responses` (plural). -/
theorem c5_response_topic_counterexample :
    (acceptConsultation
        ⟨123, CONSULT_STATUS_PENDING, "Ana", "Need help", true⟩
        true).success = true ∧
    (acceptConsultation
        ⟨123, CONSULT_STATUS_PENDING, "Ana", "Need help", true⟩
        true).published =
      some ⟨"consultease/faculty/F12345/response", CONSULT_ACTION_ACCEPT,
        123, 1, false⟩ ∧
    "consultease/faculty/F12345/response" ≠
      BASE_TOPIC ++ "/faculty/" ++ FACULTY_ID ++ "/responses" := by
  decide

/-- C5 (amended): whenever a consultation action succeeds, the response is
published on the per-faculty topic `<base>/faculty/<id>/response`
(singular), as a non-retained QoS-1 JSON payload holding exactly the
`action` field (the action keyword) and the `consultation_id` field (the
slot's id). -/
theorem c5_response_publish (s : ConsultState) (ok : Bool) :
    topicResponse = BASE_TOPIC ++ "/faculty/" ++ FACULTY_ID ++ "/response" ∧
    ((acceptConsultation s ok).success = true →
      (acceptConsultation s ok).published =
        some ⟨topicResponse, CONSULT_ACTION_ACCEPT,
          s.currentConsultationId, 1, false⟩) ∧
    ((rejectConsultation s ok).success = true →
      (rejectConsultation s ok).published =
        some ⟨topicResponse, CONSULT_ACTION_REJECT,
          s.currentConsultationId, 1, false⟩) ∧
    ((startConsultation s ok).success = true →
      (startConsultation s ok).published =
        some ⟨topicResponse, CONSULT_ACTION_START,
          s.currentConsultationId, 1, false⟩) ∧
    ((completeConsultation s ok).success = true →
      (completeConsultation s ok).published =
        some ⟨topicResponse, CONSULT_ACTION_COMPLETE,
          s.currentConsultationId, 1, false⟩) ∧
    ((cancelConsultation s ok).success = true →
      (cancelConsultation s ok).published =
        some ⟨topicResponse, CONSULT_ACTION_CANCEL,
          s.currentConsultationId, 1, false⟩) := by
  refine ⟨rfl, ?_, ?_, ?_, ?_, ?_⟩
  · unfold acceptConsultation publishConsultationResponse
    split_ifs with h1 <;> cases ok <;> simp_all
  · unfold rejectConsultation publishConsultationResponse
    split_ifs with h1 <;> cases ok <;> simp_all
  · unfold startConsultation publishConsultationResponse
    split_ifs with h1 <;> cases ok <;> simp_all
  · unfold completeConsultation publishConsultationResponse
    split_ifs with h1 <;> cases ok <;> simp_all
  · unfold cancelConsultation publishConsultationResponse
    split_ifs with h1 <;> cases ok <;> simp_all

/-- C5 witness: the concrete accept publish from the counterexample slot,
obtained through the amended theorem. -/
theorem c5_response_publish_witness :
    (acceptConsultation
        ⟨123, CONSULT_STATUS_PENDING, "Ana", "Need help", true⟩
        true).published =
      some ⟨topicResponse, CONSULT_ACTION_ACCEPT, 123, 1, false⟩ :=
  (c5_response_publish
      ⟨123, CONSULT_STATUS_PENDING, "Ana", "Need help", true⟩ true).2.1
    (by decide)

end ConsultEase

namespace ConsultEase

/-! ### BLE presence manager (ble_manager.h, config.h) -/

def TARGET_BLE_MAC_ADDRESS : String := "51:00:25:04:02:A2"

/-- `BLE_RSSI_THRESHOLD` from config.h; the member `rssiThreshold` is
initialized to it and never changed. -/
def BLE_RSSI_THRESHOLD : Int := -80

/-- `BLE_CONNECTION_TIMEOUT` from config.h (milliseconds). -/
def BLE_CONNECTION_TIMEOUT : Nat := 30000

/-- Unsigned 32-bit subtraction `a - b` as computed on `unsigned long`
millisecond timestamps. -/
def usub32 (a b : Nat) : Nat :=
  (2 ^ 32 + a % 2 ^ 32 - b % 2 ^ 32) % 2 ^ 32

/-- The mutable fields of `BLEManager` (the scan handle is the external
collaborator and is not part of the state). -/
structure BLEState where
  isFacultyPresent : Bool
  bleScanActive : Bool
  lastBeaconSignalTime : Nat
  manualOverrideActive : Bool
  manualOverrideStatus : Bool
deriving Repr, DecidableEq

/-- `BLEManager::setFacultyPresent` (the `millis()` read is passed in as
`now`); the "only update if changed" branch only logs. -/
def setFacultyPresent (s : BLEState) (present : Bool) (now : Nat) :
    BLEState :=
  { s with
    isFacultyPresent := present
    lastBeaconSignalTime :=
      if present then now else s.lastBeaconSignalTime }

/-- `BLEManager::getFacultyPresence`. -/
def getFacultyPresence (s : BLEState) : Bool :=
  if s.manualOverrideActive then s.manualOverrideStatus
  else s.isFacultyPresent

/-- `BLEManager::setManualOverride`. -/
def setManualOverride (s : BLEState) (active status : Bool) : BLEState :=
  { s with manualOverrideActive := active, manualOverrideStatus := status }

/-- `BLEManager::checkFacultyTimeout`. -/
def checkFacultyTimeout (s : BLEState) (currentTime : Nat) :
    Bool × BLEState :=
  if s.manualOverrideActive then (false, s)
  else if s.isFacultyPresent = true ∧
      usub32 currentTime s.lastBeaconSignalTime > BLE_CONNECTION_TIMEOUT then
    (true, { s with isFacultyPresent := false })
  else
    (false, s)

/-- `AdvertisedDeviceCallbacks::onResult`: a beacon observation with the
advertised address, its RSSI, whether a scan is in progress (the
`pBLEScan->isScanning()` read) and the `millis()` clock. -/
def onResult (s : BLEState) (advertisedAddress : String) (rssi : Int)
    (scanning : Bool) (now : Nat) : BLEState :=
  if s.manualOverrideActive then s
  else if advertisedAddress ≠ TARGET_BLE_MAC_ADDRESS then s
  else if BLE_RSSI_THRESHOLD ≠ 0 ∧ rssi < BLE_RSSI_THRESHOLD then s
  else
    let s1 := setFacultyPresent s true now
    if scanning then { s1 with bleScanActive := false } else s1

end ConsultEase

namespace ConsultEase

/-- C9: `checkFacultyTimeout now` returns true and flips presence to
absent exactly when the faculty is present, no manual override is active,
and `now` minus the last beacon signal time (the code's unsigned 32-bit
subtraction, which equals plain subtraction for in-range clocks) exceeds
the timeout; otherwise it returns false and changes nothing; neither a
beacon observation nor a manual-override update ever sets the automatic
presence to false. -/
theorem c9_faculty_timeout (s : BLEState) (now : Nat) :
    ((checkFacultyTimeout s now).1 = true ↔
      (s.manualOverrideActive = false ∧ s.isFacultyPresent = true ∧
       usub32 now s.lastBeaconSignalTime > BLE_CONNECTION_TIMEOUT)) ∧
    ((checkFacultyTimeout s now).1 = true →
      (checkFacultyTimeout s now).2 = { s with isFacultyPresent := false }) ∧
    ((checkFacultyTimeout s now).1 = false →
      (checkFacultyTimeout s now).2 = s) ∧
    (s.lastBeaconSignalTime ≤ now → now < 2 ^ 32 →
      usub32 now s.lastBeaconSignalTime = now - s.lastBeaconSignalTime) ∧
    (∀ (addr : String) (rssi : Int) (sc : Bool) (t : Nat),
      s.isFacultyPresent = true →
      (onResult s addr rssi sc t).isFacultyPresent = true) ∧
    (∀ a b : Bool,
      (setManualOverride s a b).isFacultyPresent = s.isFacultyPresent) := by
  refine ⟨?_, ?_, ?_, ?_, ?_, ?_⟩
  · unfold checkFacultyTimeout
    split_ifs with h1 h2 <;> simp_all
  · unfold checkFacultyTimeout
    split_ifs with h1 h2 <;> simp_all
  · unfold checkFacultyTimeout
    split_ifs with h1 h2 <;> simp_all
  · intro hle hlt
    unfold usub32
    omega
  · intro addr rssi sc t hp
    unfold onResult setFacultyPresent
    split_ifs <;> simp_all
  · intro a b
    unfold setManualOverride
    rfl

/-- C9 witness: a present faculty with last beacon at 0 and no override
times out at `now = 40000`, flipping presence to absent. -/
theorem c9_faculty_timeout_witness :
    (checkFacultyTimeout ⟨true, false, 0, false, false⟩ 40000).2 =
      { (⟨true, false, 0, false, false⟩ : BLEState) with
        isFacultyPresent := false } :=
  (c9_faculty_timeout ⟨true, false, 0, false, false⟩ 40000).2.1 (by decide)

/-- C3 counterexample: with manual override active, a beacon observation
that matches the target address and passes the RSSI threshold at time 100
is ignored entirely — `lastBeaconSignalTime` stays 0 instead of being
refreshed to 100, so the claimed "automatic bookkeeping continues
independently" is false. -/
theorem c3_override_bookkeeping_counterexample :
    (⟨false, false, 0, true, true⟩ : BLEState).manualOverrideActive =
      true ∧
    onResult ⟨false, false, 0, true, true⟩ TARGET_BLE_MAC_ADDRESS (-50)
      false 100 = ⟨false, false, 0, true, true⟩ ∧
    (onResult ⟨false, false, 0, true, true⟩ TARGET_BLE_MAC_ADDRESS (-50)
      false 100).lastBeaconSignalTime ≠ 100 := by
  refine ⟨rfl, ?_, ?_⟩ <;> decide

/-- C3 (amended): while manual override is active, `getFacultyPresence`
returns the override value and beacon observations are ignored entirely
(`onResult` leaves the whole state, including `lastBeaconSignalTime`,
unchanged — the automatic bookkeeping does not continue); when the
override is cleared, `getFacultyPresence` immediately returns the
automatic presence value, with no debounce re-applied. -/
theorem c3_manual_override_reporting (s : BLEState) (addr : String)
    (rssi : Int) (sc : Bool) (now : Nat) :
    (s.manualOverrideActive = true →
      getFacultyPresence s = s.manualOverrideStatus ∧
      onResult s addr rssi sc now = s) ∧
    (s.manualOverrideActive = false →
      getFacultyPresence s = s.isFacultyPresent) := by
  constructor
  · intro h
    constructor
    · unfold getFacultyPresence
      simp [h]
    · unfold onResult
      simp [h]
  · intro h
    unfold getFacultyPresence
    simp [h]

/-- C3 witness: with override active reporting "available" over an absent
automatic state, the reported presence is the override value and a
matching observation leaves the state unchanged. -/
theorem c3_manual_override_reporting_witness :
    getFacultyPresence ⟨false, false, 0, true, true⟩ = true ∧
    onResult ⟨false, false, 0, true, true⟩ TARGET_BLE_MAC_ADDRESS (-50)
      false 100 = ⟨false, false, 0, true, true⟩ := by
  have h := (c3_manual_override_reporting ⟨false, false, 0, true, true⟩
    TARGET_BLE_MAC_ADDRESS (-50) false 100).1 rfl
  exact ⟨h.1, h.2⟩

end ConsultEase

namespace ConsultEase

/-! ### Network manager (network_manager.h) -/

def WIFI_MAX_RETRIES : Nat := 5

def MQTT_MAX_RETRIES : Nat := 3

/-- Modelled from the spec: `CONNECTION_RETRY_INTERVAL` is referenced by
`maintainConnections` but its definition is not among the sources; the
spec only calls it the backoff interval. No claim depends on its value;
it is fixed here at 5000 ms. -/
def CONNECTION_RETRY_INTERVAL : Nat := 5000

/-- The mutable fields of `NetworkManager`, together with the
function-static `wasMQTTConnected` flag of `maintainConnections`
(initialized to false). -/
structure NetState where
  wifiConnected : Bool
  wifiRetryCount : Nat
  lastWifiRetryTime : Nat
  mqttConnected : Bool
  mqttRetryCount : Nat
  lastMqttRetryTime : Nat
  wasMQTTConnected : Bool
deriving Repr, DecidableEq

/-- Per-tick environment: the `millis()` clock, the hardware WiFi status
(`WiFi.status() == WL_CONNECTED`), the outcome a blocking WiFi connect
attempt would have, the socket-level `mqttClient->connected()` report,
and the outcome a broker connect attempt would have. -/
structure NetEnv where
  now : Nat
  wifiStatusConnected : Bool
  wifiConnectOk : Bool
  mqttClientConnected : Bool
  mqttConnectOk : Bool
deriving Repr, DecidableEq

/-- `NetworkManager::connectToWiFi` (the blocking association loop is
summarized by the `wifiConnectOk` oracle): on success sets the flag and
clears the retry counter, on failure clears the flag and increments it. -/
def connectToWiFi (s : NetState) (e : NetEnv) : Bool × NetState :=
  if e.wifiConnectOk then
    (true, { s with wifiConnected := true, wifiRetryCount := 0 })
  else
    (false,
      { s with wifiConnected := false,
               wifiRetryCount := s.wifiRetryCount + 1 })

/-- `NetworkManager::connectToMQTT`. Returns (brokerAttempted, result,
state): when `wifiConnected` is false it returns failure without touching
the broker; otherwise the broker connect outcome is the `mqttConnectOk`
oracle, and on success the full topic set is subscribed inside this call
(requests topic, legacy message topic, system status topic). -/
def connectToMQTT (s : NetState) (e : NetEnv) : Bool × Bool × NetState :=
  if s.wifiConnected = false then
    (false, false, s)
  else if e.mqttConnectOk then
    (true, true, { s with mqttConnected := true, mqttRetryCount := 0 })
  else
    (true, false,
      { s with mqttConnected := false,
               mqttRetryCount := s.mqttRetryCount + 1 })

/-- The WiFi block at the top of `maintainConnections`. -/
def wifiPhase (s : NetState) (e : NetEnv) : NetState :=
  if e.wifiStatusConnected = false then
    if s.wifiConnected = false ∨
        (s.wifiRetryCount < WIFI_MAX_RETRIES ∧
         usub32 e.now s.lastWifiRetryTime > CONNECTION_RETRY_INTERVAL) then
      let s1 := { s with lastWifiRetryTime := e.now }
      let r := connectToWiFi s1 e
      let s2 := { r.2 with wifiConnected := r.1 }
      if r.1 = false ∧ WIFI_MAX_RETRIES ≤ s2.wifiRetryCount then
        { s2 with lastWifiRetryTime :=
            (usub32 e.now CONNECTION_RETRY_INTERVAL + 60000) % 2 ^ 32 }
      else s2
    else s
  else { s with wifiConnected := true }

/-- The MQTT block of `maintainConnections`: refresh `mqttConnected` from
the client, retry at the backoff interval, and on a failed attempt that
reaches the retry maximum tear the WiFi link down and reset both
counters. Returns (brokerAttempted, state). -/
def mqttPhase (s : NetState) (e : NetEnv) : Bool × NetState :=
  let s0 := { s with mqttConnected := e.mqttClientConnected }
  if s0.wifiConnected = true ∧ s0.mqttConnected = false then
    if usub32 e.now s0.lastMqttRetryTime > CONNECTION_RETRY_INTERVAL then
      let s1 := { s0 with lastMqttRetryTime := e.now }
      let r := connectToMQTT s1 e
      let s2 := { r.2.2 with mqttConnected := r.2.1 }
      if r.2.1 = false ∧ MQTT_MAX_RETRIES ≤ s2.mqttRetryCount then
        (r.1, { s2 with wifiConnected := false, wifiRetryCount := 0,
                        mqttRetryCount := 0 })
      else (r.1, s2)
    else (false, s0)
  else (false, s0)

/-- Result of one `maintainConnections` tick. `resubscribed` records the
down-to-up edge handler `handleMQTTReconnection` (the code's
"resubscribing to topics" path) having run. -/
structure TickResult where
  allConnected : Bool
  resubscribed : Bool
  brokerAttempted : Bool
  state : NetState
deriving Repr, DecidableEq

/-- `NetworkManager::maintainConnections`. -/
def maintainConnections (s : NetState) (e : NetEnv) : TickResult :=
  let s1 := wifiPhase s e
  let m := mqttPhase s1 e
  let s2 := m.2
  let resub := s2.mqttConnected = true ∧ s.wasMQTTConnected = false
  let s3 := { s2 with wasMQTTConnected := s2.mqttConnected }
  ⟨s3.wifiConnected && s3.mqttConnected, decide resub, m.1, s3⟩

/-- Run a sequence of `maintainConnections` ticks, listing for each tick
whether the resubscription handler ran. -/
def resubTrace (s : NetState) : List NetEnv → List Bool
  | [] => []
  | e :: es =>
    let r := maintainConnections s e
    r.resubscribed :: resubTrace r.state es

/-- Run a sequence of ticks, listing the session (MQTT) level after each
tick. -/
def upTrace (s : NetState) : List NetEnv → List Bool
  | [] => []
  | e :: es =>
    let r := maintainConnections s e
    r.state.mqttConnected :: upTrace r.state es

/-- The down-to-up edges of a level trace, given the level before the
first tick. -/
def edgeTrace (prev : Bool) : List Bool → List Bool
  | [] => []
  | u :: us => (u && !prev) :: edgeTrace u us

end ConsultEase

namespace ConsultEase

/-- Per-tick shape of the reconnection edge detector: the resubscription
handler runs exactly when the session is up after the tick and was not up
after the previous one, and the stored level is updated to the current
session level. -/
theorem maintainConnections_resub_shape (s : NetState) (e : NetEnv) :
    ((maintainConnections s e).resubscribed =
      ((maintainConnections s e).state.mqttConnected &&
        !s.wasMQTTConnected)) ∧
    ((maintainConnections s e).state.wasMQTTConnected =
      (maintainConnections s e).state.mqttConnected) := by
  unfold maintainConnections
  cases h1 : (mqttPhase (wifiPhase s e) e).2.mqttConnected <;>
    cases h2 : s.wasMQTTConnected <;> simp [h1, h2]

/-- C2: over any sequence of `maintainConnections` ticks, the
resubscription handler runs exactly on the session down-to-up edges of
the run (one tick per edge), and in particular never on a tick whose
previous tick already ended with the session up. -/
theorem c2_resubscribe_once_per_edge (s : NetState) (envs : List NetEnv)
    (e : NetEnv) :
    (resubTrace s envs = edgeTrace s.wasMQTTConnected (upTrace s envs)) ∧
    (s.wasMQTTConnected = true →
      (maintainConnections s e).resubscribed = false) := by
  constructor
  · induction envs generalizing s with
    | nil => rfl
    | cons e0 es ih =>
      have h := maintainConnections_resub_shape s e0
      have ht := ih (maintainConnections s e0).state
      rw [h.2] at ht
      simp only [resubTrace, upTrace, edgeTrace]
      rw [h.1, ht]
  · intro hup
    have h := (maintainConnections_resub_shape s e).1
    rw [h, hup]
    simp

/-- C2 witness: from the initial state, two identical ticks with the
session socket up produce a resubscription on the first tick (the
down-to-up edge) and none on the second (sustained up). -/
theorem c2_resubscribe_once_per_edge_witness :
    resubTrace ⟨false, 0, 0, false, 0, 0, false⟩
      [⟨1000000, true, true, true, true⟩,
       ⟨1000000, true, true, true, true⟩] = [true, false] := by
  have h := (c2_resubscribe_once_per_edge ⟨false, 0, 0, false, 0, 0, false⟩
    [⟨1000000, true, true, true, true⟩, ⟨1000000, true, true, true, true⟩]
    ⟨1000000, true, true, true, true⟩).1
  rw [h]
  decide

/-- C6: when an MQTT reconnection attempt is made with the link flag up
(socket down, backoff elapsed), the attempt fails, and the incremented
session retry count reaches the configured maximum, the tick tears the
link down and resets both retry counters to 0. -/
theorem c6_session_retry_escalation (s : NetState) (e : NetEnv)
    (h1 : (wifiPhase s e).wifiConnected = true)
    (h2 : e.mqttClientConnected = false)
    (h3 : usub32 e.now (wifiPhase s e).lastMqttRetryTime >
      CONNECTION_RETRY_INTERVAL)
    (h4 : e.mqttConnectOk = false)
    (h5 : MQTT_MAX_RETRIES ≤ (wifiPhase s e).mqttRetryCount + 1) :
    (maintainConnections s e).state.wifiConnected = false ∧
    (maintainConnections s e).state.wifiRetryCount = 0 ∧
    (maintainConnections s e).state.mqttRetryCount = 0 := by
  unfold maintainConnections mqttPhase connectToMQTT
  simp [h1, h2, h3, h4, h5]

/-- C6 witness: a concrete state with two prior MQTT failures and the
link up is torn down (both counters cleared) on the next failed
attempt. -/
theorem c6_session_retry_escalation_witness :
    (maintainConnections ⟨true, 0, 0, false, 2, 0, false⟩
        ⟨1000000, true, true, false, false⟩).state.wifiConnected = false ∧
    (maintainConnections ⟨true, 0, 0, false, 2, 0, false⟩
        ⟨1000000, true, true, false, false⟩).state.wifiRetryCount = 0 ∧
    (maintainConnections ⟨true, 0, 0, false, 2, 0, false⟩
        ⟨1000000, true, true, false, false⟩).state.mqttRetryCount = 0 :=
  c6_session_retry_escalation ⟨true, 0, 0, false, 2, 0, false⟩
    ⟨1000000, true, true, false, false⟩
    (by decide) (by decide) (by decide) (by decide) (by decide)

/-- C7: the session layer is only ever attempted while the link flag is
up: `connectToMQTT` returns failure without touching the broker when
WiFi is not connected, and a `maintainConnections` tick attempts the
broker only when the link flag (as refreshed by the WiFi block) is up. -/
theorem c7_session_requires_link (s : NetState) (e : NetEnv) :
    (s.wifiConnected = false → connectToMQTT s e = (false, false, s)) ∧
    ((maintainConnections s e).brokerAttempted = true →
      (wifiPhase s e).wifiConnected = true) := by
  constructor
  · intro h
    unfold connectToMQTT
    simp [h]
  · intro h
    unfold maintainConnections mqttPhase connectToMQTT at h
    by_cases hw : (wifiPhase s e).wifiConnected = true
    · exact hw
    · simp [hw] at h

/-- C7 witness: in a tick that does attempt the broker (and fails), the
link flag was up. -/
theorem c7_session_requires_link_witness :
    (wifiPhase ⟨true, 0, 0, false, 2, 0, false⟩
        ⟨1000000, true, true, false, false⟩).wifiConnected = true :=
  (c7_session_requires_link ⟨true, 0, 0, false, 2, 0, false⟩
      ⟨1000000, true, true, false, false⟩).2 (by decide)

end ConsultEase
